import Mathlib

set_option maxRecDepth 10000

/-!
# Verification of the Inscenium edge compositor

Shallow embedding of the two source files of the repository:

* `src/edge/edge_worker_wasm/src/lib.rs` — the single-layer WebAssembly
  compositor (`composite_segment`, `composite_with_depth`,
  `validate_frame_size`);
* `src/tests/rust/edge_worker_tests.rs` — the multi-layer
  `EdgeCompositor` (admission gate, memory estimate, per-layer blend
  dispatch, statistics).

Modelling conventions:

* `u8` buffer bytes are `ℕ` together with a `< 256` well-formedness
  hypothesis where it matters; `u32` arithmetic that can wrap is taken
  modulo `2 ^ 32` (release-build wrap-around semantics); `usize`
  arithmetic is plain `ℕ`.
* The `f32` values that the pixel-blend loop computes with are modelled
  bit-exactly: a finite `f32` value is the exact rational it denotes, and
  every arithmetic operation of the loop is followed by `roundF32`,
  round-to-nearest-even at 24 significand bits.  All values produced by
  the blend path lie in the normal range of `f32`, where this is exactly
  the IEEE behaviour.  Depth values, which are only ever compared, are
  `Option ℚ` with `none` playing the role of NaN: `f32lt` is false
  whenever either side is `none`, matching IEEE `<` on NaN.
* The scalar `f32` values of the `EdgeCompositor` (thresholds, opacity,
  transform entries) are the exact rationals they denote; comparisons on
  them are exact, and the `f32` arithmetic the compositor performs on
  them (`calculate_transform_uncertainty`, `blend_normal`) applies
  `roundF32` after every add, subtract and multiply, as the source does
  (`abs` on `f32` is exact).
* Rust indexing that would panic out of bounds is modelled with `getD`
  defaults; a dedicated theorem shows the defaults are never consulted
  under the validated preconditions.
-/

namespace Inscenium

/-- Number of binary digits of `n`, by fuel recursion (`bitsAux n n`
is `⌊log₂ n⌋ + 1` for `n > 0`, and `0` for `n = 0`). -/
def bitsAux : ℕ → ℕ → ℕ
  | 0, _ => 0
  | f + 1, n => if n = 0 then 0 else bitsAux f (n / 2) + 1

/-- Number of binary digits of `n` (`bits 0 = 0`, `bits 1 = 1`,
`bits 255 = 8`). -/
def bits (n : ℕ) : ℕ := bitsAux n n

/-- Multiply a rational by `2 ^ z` for a signed exponent `z`. -/
def mulPow2 (q : ℚ) (z : ℤ) : ℚ :=
  if 0 ≤ z then q * ((2 ^ z.toNat : ℕ) : ℚ)
  else q / ((2 ^ (-z).toNat : ℕ) : ℚ)

/-- Binade exponent of a positive rational: the unique `e` with
`2 ^ e ≤ q < 2 ^ (e + 1)`, computed from the bit lengths of the
numerator and denominator. -/
def binade (q : ℚ) : ℤ :=
  let d0 : ℤ := (bits q.num.natAbs : ℤ) - (bits q.den : ℤ)
  if q < mulPow2 1 d0 then d0 - 1 else d0

/-- Round a rational to the nearest integer, ties to even
(the IEEE-754 default rounding of a scaled significand). -/
def rne (q : ℚ) : ℤ :=
  let n := q.floor
  if q - n < 1/2 then n
  else if (1:ℚ)/2 < q - n then n + 1
  else if n % 2 = 0 then n else n + 1

/-- Round a positive rational to the `f32` grid: 24 significand bits,
round to nearest, ties to even. -/
def roundF32pos (q : ℚ) : ℚ :=
  let e : ℤ := binade q
  mulPow2 (rne (mulPow2 q (23 - e)) : ℚ) (e - 23)

/-- Result of an `f32` arithmetic operation whose exact value is `q`:
round to nearest even.  All values reached by the compositor's blend
path are `0` or lie in the normal range of `f32`, where this agrees
with IEEE-754 binary32 arithmetic. -/
def roundF32 (q : ℚ) : ℚ :=
  if q = 0 then 0
  else if 0 < q then roundF32pos q
  else -(roundF32pos (-q))

/-- IEEE `<` on `f32` depth values; `none` is NaN, and any comparison
with NaN is false. -/
def f32lt : Option ℚ → Option ℚ → Bool
  | some a, some b => a < b
  | _, _ => false

/-- Rust `x.clamp(0.0, 255.0) as u8` for a finite `f32` value `q`:
clamp into `[0, 255]` (`clamp` returns `min` below the range and `max`
above it), then truncate toward zero. -/
def clampToU8 (q : ℚ) : ℕ :=
  (Rat.floor (if q < 0 then 0 else if 255 < q then 255 else q)).toNat

/-! ## `src/edge/edge_worker_wasm/src/lib.rs` -/

/-- One byte of the output of `composite_with_depth`: channel `ch` of
pixel `i`.  Mirrors the body of the `for i in 0..pixel_count` loop of
`composite_with_depth` (lib.rs lines 51–71): depth test against
`depth_map[i]`, `alpha = alpha_mask[i] as f32 / 255.0`, and on the
blend branch `creative*alpha + base*(1-alpha)` with every `f32`
operation rounded, then clamped and truncated to `u8`. -/
def compositeByte (base_frame creative_frame : List ℕ)
    (depth_map : List (Option ℚ)) (alpha_mask : List ℕ)
    (creative_depth : Option ℚ) (i ch : ℕ) : ℕ :=
  let pixel_idx := i * 4
  let scene_depth := depth_map.getD i none
  let alpha := roundF32 ((alpha_mask.getD i 0 : ℚ) / 255)
  if f32lt creative_depth scene_depth ∧ 0 < alpha then
    let base_val : ℚ := (base_frame.getD (pixel_idx + ch) 0 : ℚ)
    let creative_val : ℚ := (creative_frame.getD (pixel_idx + ch) 0 : ℚ)
    let blended := roundF32 (roundF32 (creative_val * alpha) +
      roundF32 (base_val * roundF32 (1 - alpha)))
    clampToU8 blended
  else
    base_frame.getD (pixel_idx + ch) 0

/-- `composite_with_depth` (lib.rs lines 39–74).  The output vector has
the length of `base_frame`; byte `j` is written by the loop iteration
`i = j / 4`, channel `j % 4`, when `j < pixel_count * 4`, and keeps its
`vec![0u8; ...]` initial value otherwise.  `pixel_count` is the `u32`
product `width * height`, which wraps modulo `2 ^ 32`. -/
def composite_with_depth (base_frame creative_frame : List ℕ)
    (depth_map : List (Option ℚ)) (alpha_mask : List ℕ)
    (width height : ℕ) (creative_depth : Option ℚ) : List ℕ :=
  let pixel_count := (width * height) % 2 ^ 32
  (List.range base_frame.length).map (fun j =>
    if j < pixel_count * 4 then
      compositeByte base_frame creative_frame depth_map alpha_mask
        creative_depth (j / 4) (j % 4)
    else 0)

/-- `composite_segment` (lib.rs lines 13–36): validate the four buffer
lengths against `pixel_count = (width * height) as usize` (a `u32`
product) and return the base frame unchanged if any check fails,
otherwise composite. -/
def composite_segment (base_frame creative_frame : List ℕ)
    (depth_map : List (Option ℚ)) (alpha_mask : List ℕ)
    (width height : ℕ) (creative_depth : Option ℚ) : List ℕ :=
  let pixel_count := (width * height) % 2 ^ 32
  if base_frame.length < pixel_count * 4 ∨
     creative_frame.length < pixel_count * 4 ∨
     depth_map.length < pixel_count ∨
     alpha_mask.length < pixel_count then
    base_frame
  else
    composite_with_depth base_frame creative_frame depth_map alpha_mask
      width height creative_depth

/-- `validate_frame_size` (lib.rs lines 78–80): `data_len >=
(width * height * 4) as usize`, the product computed in `u32` and hence
taken modulo `2 ^ 32`. -/
def validate_frame_size (data_len width height : ℕ) : Bool :=
  data_len ≥ (width * height * 4) % 2 ^ 32

/-! ### Helper lemmas about the `f32` model -/

theorem Rat_floor_eq_intFloor (q : ℚ) : q.floor = ⌊q⌋ :=
  (Rat.floor_def' q).trans Rat.floor_def.symm

theorem roundF32_zero : roundF32 0 = 0 := by
  with_unfolding_all decide

theorem roundF32_one : roundF32 1 = 1 := by
  with_unfolding_all decide

theorem roundF32_byte_fin : ∀ c : Fin 256, roundF32 ((c : ℕ) : ℚ) = ((c : ℕ) : ℚ) := by
  with_unfolding_all decide

theorem roundF32_byte {c : ℕ} (hc : c < 256) : roundF32 (c : ℚ) = (c : ℚ) :=
  roundF32_byte_fin ⟨c, hc⟩

theorem clampToU8_byte {c : ℕ} (hc : c < 256) : clampToU8 (c : ℚ) = c := by
  unfold clampToU8
  rw [if_neg (not_lt.mpr (Nat.cast_nonneg c)),
    if_neg (not_lt.mpr (by exact_mod_cast Nat.lt_succ_iff.mp hc)),
    Rat_floor_eq_intFloor, Int.floor_natCast, Int.toNat_natCast]

/-- Under the four validated size preconditions (and no `u32` overflow
of `width * height`), byte `j` of the output of `composite_segment` is
the byte the pixel loop computes for pixel `j / 4`, channel `j % 4`. -/
theorem composite_segment_getD
    (base_frame creative_frame : List ℕ) (depth_map : List (Option ℚ))
    (alpha_mask : List ℕ) (width height : ℕ) (creative_depth : Option ℚ)
    (j : ℕ)
    (hwh : width * height < 2 ^ 32)
    (hb : base_frame.length ≥ width * height * 4)
    (hc : creative_frame.length ≥ width * height * 4)
    (hd : depth_map.length ≥ width * height)
    (hm : alpha_mask.length ≥ width * height)
    (hj : j < width * height * 4) :
    (composite_segment base_frame creative_frame depth_map alpha_mask
        width height creative_depth).getD j 0
      = compositeByte base_frame creative_frame depth_map alpha_mask
          creative_depth (j / 4) (j % 4) := by
  have hpc : width * height % 2 ^ 32 = width * height := Nat.mod_eq_of_lt hwh
  have hjb : j < base_frame.length := lt_of_lt_of_le hj hb
  simp only [composite_segment, composite_with_depth, hpc]
  rw [if_neg (by push_neg; omega)]
  rw [List.getD_eq_getElem _ _ (by simpa using hjb)]
  simp only [List.getElem_map, List.getElem_range, if_pos hj]

/-- On a pixel where the creative content is in front and the mask is
fully opaque, every `f32` step of the blend is exact and the output is
the creative byte. -/
theorem compositeByte_full_alpha
    (base_frame creative_frame : List ℕ) (depth_map : List (Option ℚ))
    (alpha_mask : List ℕ) (creative_depth : Option ℚ) (i ch : ℕ)
    (hcb : creative_frame.getD (i * 4 + ch) 0 < 256)
    (hdepth : f32lt creative_depth (depth_map.getD i none) = true)
    (hmask : alpha_mask.getD i 0 = 255) :
    compositeByte base_frame creative_frame depth_map alpha_mask
        creative_depth i ch = creative_frame.getD (i * 4 + ch) 0 := by
  have halpha : roundF32 ((alpha_mask.getD i 0 : ℚ) / 255) = 1 := by
    rw [hmask]
    norm_num [roundF32_one]
  simp only [compositeByte, halpha]
  rw [if_pos ⟨hdepth, one_pos⟩, mul_one, sub_self, roundF32_zero, mul_zero,
    roundF32_zero, add_zero, roundF32_byte hcb, roundF32_byte hcb,
    clampToU8_byte hcb]

/-- On a pixel where the depth test fails or the mask byte is zero, the
output is the base byte. -/
theorem compositeByte_base_pixel
    (base_frame creative_frame : List ℕ) (depth_map : List (Option ℚ))
    (alpha_mask : List ℕ) (creative_depth : Option ℚ) (i ch : ℕ)
    (h : f32lt creative_depth (depth_map.getD i none) = false ∨
      alpha_mask.getD i 0 = 0) :
    compositeByte base_frame creative_frame depth_map alpha_mask
        creative_depth i ch = base_frame.getD (i * 4 + ch) 0 := by
  simp only [compositeByte]
  rw [if_neg]
  rintro ⟨h1, h2⟩
  rcases h with h | h
  · rw [h] at h1
    exact Bool.false_ne_true h1
  · rw [h] at h2
    simp [roundF32_zero] at h2

/-- Rust `f32 as u8` saturating cast: negative values go to `0`, values
at `256` or above to `255`, and values in range truncate toward zero. -/
def satU8 (q : ℚ) : ℕ :=
  if q < 0 then 0
  else if 256 ≤ q then 255
  else (Rat.floor q).toNat

/-- Rust `f32::abs`. -/
def qabs (q : ℚ) : ℚ :=
  if q < 0 then -q else q

/-- `VideoFrame` (edge_worker_tests.rs lines 8–12). -/
structure VideoFrame where
  width : ℕ
  height : ℕ
  data : List ℕ
  deriving DecidableEq

/-- `BlendMode` (edge_worker_tests.rs lines 22–28). -/
inductive BlendMode where
  | Normal
  | Multiply
  | Screen
  | Overlay
  deriving DecidableEq

/-- `PlacementLayer` (edge_worker_tests.rs lines 14–20); `transform` is
the row-major `[f32; 9]` matrix. -/
structure PlacementLayer where
  creative_data : List ℕ
  transform : List ℚ
  opacity : ℚ
  blend_mode : BlendMode
  deriving DecidableEq

/-- `CompositorConfig` (edge_worker_tests.rs lines 30–34). -/
structure CompositorConfig where
  max_memory_mb : ℕ
  quality_threshold : ℚ
  uncertainty_threshold : ℚ
  deriving DecidableEq

/-- `PerformanceStats` (edge_worker_tests.rs lines 42–48); the `u32`
counters are modelled as `ℕ`, the `f32` gauges as `ℚ`. -/
structure PerformanceStats where
  frames_processed : ℕ
  avg_processing_time_ms : ℚ
  memory_usage_mb : ℚ
  uncertainty_rejections : ℕ
  deriving DecidableEq

/-- `PerformanceStats::default()`: all fields zero. -/
def PerformanceStats.default : PerformanceStats :=
  { frames_processed := 0
    avg_processing_time_ms := 0
    memory_usage_mb := 0
    uncertainty_rejections := 0 }

/-- `CompositorError` (edge_worker_tests.rs lines 50–56). -/
inductive CompositorError where
  | InvalidInput
  | MemoryExceeded
  | UncertaintyThresholdExceeded
  | ProcessingFailed
  deriving DecidableEq

deriving instance DecidableEq for Except

/-- `EdgeCompositor` (edge_worker_tests.rs lines 37–40). -/
structure EdgeCompositor where
  config : CompositorConfig
  performance_stats : PerformanceStats
  deriving DecidableEq

/-- `EdgeCompositor::new` (edge_worker_tests.rs lines 59–64). -/
def EdgeCompositor.new (config : CompositorConfig) : EdgeCompositor :=
  { config := config, performance_stats := PerformanceStats.default }

/-- `estimate_memory_usage` (edge_worker_tests.rs lines 105–109):
`(width * height * 4) / (1024 * 1024)` in wrapping `u32` arithmetic,
plus `layers.len() as u32 * 2`. -/
def EdgeCompositor.estimate_memory_usage (_self : EdgeCompositor)
    (base_frame : VideoFrame) (layers : List PlacementLayer) : ℕ :=
  let base_memory :=
    (base_frame.width * base_frame.height * 4) % 2 ^ 32 / (1024 * 1024)
  let layers_memory := layers.length % 2 ^ 32 * 2 % 2 ^ 32
  (base_memory + layers_memory) % 2 ^ 32

/-- `calculate_transform_uncertainty` (edge_worker_tests.rs lines
122–130), with the source's `f32` arithmetic modelled bit-exactly:
`abs` on `f32` is exact, and every add, subtract and multiply rounds
to nearest-even. -/
def EdgeCompositor.calculate_transform_uncertainty (_self : EdgeCompositor)
    (transform : List ℚ) (base_uncertainty : ℚ) : ℚ :=
  let scale_x := transform.getD 0 0
  let scale_y := transform.getD 4 0
  let translation_uncertainty :=
    roundF32 (roundF32 (qabs (transform.getD 2 0) + qabs (transform.getD 5 0))
      * base_uncertainty)
  let scale_uncertainty :=
    roundF32 (roundF32 (qabs (roundF32 (scale_x - 1))
      + qabs (roundF32 (scale_y - 1))) * base_uncertainty)
  roundF32 (translation_uncertainty + scale_uncertainty)

/-- `should_composite_layer` (edge_worker_tests.rs lines 111–120). -/
def EdgeCompositor.should_composite_layer (self : EdgeCompositor)
    (layer : PlacementLayer) (uncertainty : ℚ) : Bool :=
  if layer.opacity < 0.1 then false
  else
    let transform_uncertainty :=
      self.calculate_transform_uncertainty layer.transform uncertainty
    decide (transform_uncertainty < self.config.quality_threshold)

/-- `blend_normal` (edge_worker_tests.rs lines 149–157): over the
common prefix of the two buffers, re-blend every alpha channel
(`i % 4 == 3`) with the layer opacity, every `f32` operation rounding;
all other bytes are unchanged. -/
def EdgeCompositor.blend_normal (_self : EdgeCompositor)
    (base_frame : VideoFrame) (layer : PlacementLayer) : VideoFrame :=
  { base_frame with data :=
      (List.range base_frame.data.length).map (fun i =>
        if i < min base_frame.data.length layer.creative_data.length ∧
            i % 4 = 3 then
          satU8 (roundF32 (roundF32 ((base_frame.data.getD i 0 : ℚ)
              * roundF32 (1 - layer.opacity))
            + roundF32 ((layer.creative_data.getD i 0 : ℚ) * layer.opacity)))
        else base_frame.data.getD i 0) }

/-- `blend_multiply` (edge_worker_tests.rs lines 159–161): stub with no
effect. -/
def EdgeCompositor.blend_multiply (_self : EdgeCompositor)
    (base_frame : VideoFrame) (_layer : PlacementLayer) : VideoFrame :=
  base_frame

/-- `blend_screen` (edge_worker_tests.rs lines 163–165): stub with no
effect. -/
def EdgeCompositor.blend_screen (_self : EdgeCompositor)
    (base_frame : VideoFrame) (_layer : PlacementLayer) : VideoFrame :=
  base_frame

/-- `blend_overlay` (edge_worker_tests.rs lines 167–169): stub with no
effect. -/
def EdgeCompositor.blend_overlay (_self : EdgeCompositor)
    (base_frame : VideoFrame) (_layer : PlacementLayer) : VideoFrame :=
  base_frame

/-- `composite_layer` (edge_worker_tests.rs lines 132–147): fail with
`ProcessingFailed` on an empty creative buffer, otherwise dispatch on
the blend mode and return the updated frame. -/
def EdgeCompositor.composite_layer (self : EdgeCompositor)
    (base_frame : VideoFrame) (layer : PlacementLayer) :
    Except CompositorError VideoFrame :=
  if layer.creative_data.isEmpty then
    .error .ProcessingFailed
  else
    match layer.blend_mode with
    | .Normal => .ok (self.blend_normal base_frame layer)
    | .Multiply => .ok (self.blend_multiply base_frame layer)
    | .Screen => .ok (self.blend_screen base_frame layer)
    | .Overlay => .ok (self.blend_overlay base_frame layer)

/-- The `for layer in layers` loop of `composite_segment`
(edge_worker_tests.rs lines 92–96): skip layers rejected by
`should_composite_layer`, thread the output frame through
`composite_layer`, and propagate its error (the `?` operator). -/
def EdgeCompositor.applyLayers (self : EdgeCompositor)
    (output_frame : VideoFrame) (layers : List PlacementLayer)
    (uncertainty_score : ℚ) : Except CompositorError VideoFrame :=
  match layers with
  | [] => .ok output_frame
  | layer :: rest =>
    if self.should_composite_layer layer uncertainty_score then
      match self.composite_layer output_frame layer with
      | .error e => .error e
      | .ok output_frame' => self.applyLayers output_frame' rest uncertainty_score
    else
      self.applyLayers output_frame rest uncertainty_score

/-- `EdgeCompositor::composite_segment` (edge_worker_tests.rs lines
66–103).  `&mut self` is modelled by returning the updated compositor
next to the result: empty base data fails with `InvalidInput`;
a frame uncertainty above the threshold fails with
`UncertaintyThresholdExceeded` and bumps the rejection counter; an
estimate above the memory budget fails with `MemoryExceeded`; a layer
error propagates untouched; on success `frames_processed` is bumped
and the estimate recorded. -/
def EdgeCompositor.composite_segment (self : EdgeCompositor)
    (base_frame : VideoFrame) (layers : List PlacementLayer)
    (uncertainty_score : ℚ) :
    Except CompositorError VideoFrame × EdgeCompositor :=
  if base_frame.data.isEmpty then
    (.error .InvalidInput, self)
  else if self.config.uncertainty_threshold < uncertainty_score then
    (.error .UncertaintyThresholdExceeded,
      { self with performance_stats := { self.performance_stats with
          uncertainty_rejections :=
            self.performance_stats.uncertainty_rejections + 1 } })
  else
    let estimated_memory := self.estimate_memory_usage base_frame layers
    if self.config.max_memory_mb < estimated_memory then
      (.error .MemoryExceeded, self)
    else
      match self.applyLayers base_frame layers uncertainty_score with
      | .error e => (.error e, self)
      | .ok output_frame =>
        (.ok output_frame,
          { self with performance_stats := { self.performance_stats with
              frames_processed := self.performance_stats.frames_processed + 1,
              memory_usage_mb := (estimated_memory : ℚ) } })

/-! ### Claims about the single-layer compositor -/

/-- C1: claimed output `[128, 0, 128, 255]` for a 1×1 red base,
blue creative, `alpha_mask[0] = 128` and creative in front.  The code
actually produces `[126, 0, 128, 255]`: the red channel is
`255 * (1 - fl(128/255)) ≈ 126.99999`, which truncates to `126`, so the
code contradicts its own unit test `test_composite_with_partial_alpha`
(which asserts `128`). -/
theorem c1_partial_alpha_actual_output :
    composite_segment [255, 0, 0, 255] [0, 0, 255, 255] [some 10] [128] 1 1
        (some 5) = [126, 0, 128, 255] ∧
      composite_segment [255, 0, 0, 255] [0, 0, 255, 255] [some 10] [128] 1 1
        (some 5) ≠ [128, 0, 128, 255] := by
  with_unfolding_all decide

/-- C2: for every valid input and pixel `i` with `creative_depth <
depth_map[i]` and `alpha_mask[i] == 255`, all four output channels of
pixel `i` equal the creative frame's channels bit-for-bit. -/
theorem c2_full_alpha_copies_creative
    (base_frame creative_frame : List ℕ) (depth_map : List (Option ℚ))
    (alpha_mask : List ℕ) (width height : ℕ) (creative_depth : Option ℚ)
    (i ch : ℕ)
    (hbytes : ∀ x ∈ creative_frame, x < 256)
    (hwh : width * height < 2 ^ 32)
    (hb : base_frame.length ≥ width * height * 4)
    (hc : creative_frame.length ≥ width * height * 4)
    (hd : depth_map.length ≥ width * height)
    (hm : alpha_mask.length ≥ width * height)
    (hi : i < width * height) (hch : ch < 4)
    (hdepth : f32lt creative_depth (depth_map.getD i none) = true)
    (hmask : alpha_mask.getD i 0 = 255) :
    (composite_segment base_frame creative_frame depth_map alpha_mask
        width height creative_depth).getD (i * 4 + ch) 0
      = creative_frame.getD (i * 4 + ch) 0 := by
  have hj : i * 4 + ch < width * height * 4 := by omega
  rw [composite_segment_getD _ _ _ _ _ _ _ _ hwh hb hc hd hm hj]
  have hdiv : (i * 4 + ch) / 4 = i := by omega
  have hmod : (i * 4 + ch) % 4 = ch := by omega
  rw [hdiv, hmod]
  have hcb : creative_frame.getD (i * 4 + ch) 0 < 256 := by
    rw [List.getD_eq_getElem _ _ (by omega : i * 4 + ch < creative_frame.length)]
    exact hbytes _ (List.getElem_mem _)
  exact compositeByte_full_alpha _ _ _ _ _ _ _ hcb hdepth hmask

/-- Witness for C2 at the repo's own full-alpha test frame. -/
theorem c2_full_alpha_copies_creative_witness :
    (composite_segment [255, 0, 0, 255] [0, 255, 0, 255] [some 10] [255] 1 1
        (some 5)).getD (0 * 4 + 1) 0
      = ([0, 255, 0, 255] : List ℕ).getD (0 * 4 + 1) 0 :=
  c2_full_alpha_copies_creative [255, 0, 0, 255] [0, 255, 0, 255] [some 10]
    [255] 1 1 (some 5) 0 1 (by decide) (by decide) (by decide) (by decide)
    (by decide) (by decide) (by decide) (by decide)
    (by with_unfolding_all decide) (by decide)

/-- C3: whenever the depth test fails (`creative_depth < depth_map[i]`
is false, which covers depth equality and either side being NaN) or the
mask byte is `0`, all four output channels of pixel `i` equal the base
frame's channels; moreover `f32lt` is false on equal depths and false
whenever either argument is NaN. -/
theorem c3_base_pixel_exact :
    (∀ (base_frame creative_frame : List ℕ) (depth_map : List (Option ℚ))
        (alpha_mask : List ℕ) (width height : ℕ) (creative_depth : Option ℚ)
        (i ch : ℕ),
      width * height < 2 ^ 32 →
      base_frame.length ≥ width * height * 4 →
      creative_frame.length ≥ width * height * 4 →
      depth_map.length ≥ width * height →
      alpha_mask.length ≥ width * height →
      i < width * height → ch < 4 →
      (f32lt creative_depth (depth_map.getD i none) = false ∨
        alpha_mask.getD i 0 = 0) →
      (composite_segment base_frame creative_frame depth_map alpha_mask
          width height creative_depth).getD (i * 4 + ch) 0
        = base_frame.getD (i * 4 + ch) 0)
    ∧ (∀ q : ℚ, f32lt (some q) (some q) = false)
    ∧ (∀ d : Option ℚ, f32lt none d = false)
    ∧ (∀ c : Option ℚ, f32lt c none = false) := by
  refine ⟨?_, ?_, ?_, ?_⟩
  · intro base_frame creative_frame depth_map alpha_mask width height
      creative_depth i ch hwh hb hc hd hm hi hch h
    have hj : i * 4 + ch < width * height * 4 := by omega
    rw [composite_segment_getD _ _ _ _ _ _ _ _ hwh hb hc hd hm hj]
    have hdiv : (i * 4 + ch) / 4 = i := by omega
    have hmod : (i * 4 + ch) % 4 = ch := by omega
    rw [hdiv, hmod]
    exact compositeByte_base_pixel _ _ _ _ _ _ _ h
  · intro q
    simp [f32lt]
  · intro d
    cases d <;> rfl
  · intro c
    cases c <;> rfl

/-- Witness for C3: a NaN creative depth (creative behind on ties and
NaN) leaves the repo's test pixel at the base value. -/
theorem c3_base_pixel_exact_witness :
    (composite_segment [255, 0, 0, 255] [0, 255, 0, 255] [some 10] [255] 1 1
        none).getD (0 * 4 + 0) 0
      = ([255, 0, 0, 255] : List ℕ).getD (0 * 4 + 0) 0 :=
  c3_base_pixel_exact.1 [255, 0, 0, 255] [0, 255, 0, 255] [some 10] [255] 1 1
    none 0 0 (by decide) (by decide) (by decide) (by decide) (by decide)
    (by decide) (by decide) (Or.inl (by decide))

/-- C4 counterexample: at `width = height = 65536` the `u32` pixel
count wraps to `0`, so a malformed 4-byte base buffer (far shorter than
`width * height * 4`) passes validation and the call returns a
zero-filled buffer instead of the base frame unchanged. -/
theorem c4_overflow_counterexample :
    ([1, 2, 3, 4] : List ℕ).length < 65536 * 65536 * 4 ∧
      composite_segment [1, 2, 3, 4] [1, 2, 3, 4] [some 1] [1] 65536 65536
        (some 0) = [0, 0, 0, 0] ∧
      composite_segment [1, 2, 3, 4] [1, 2, 3, 4] [some 1] [1] 65536 65536
        (some 0) ≠ [1, 2, 3, 4] := by
  with_unfolding_all decide

/-- C4 (amended with `width * height < 2 ^ 32`, i.e. no `u32` wrap in
the pixel count): if any of the four buffer-length preconditions fails,
the call returns the base frame unchanged, byte-for-byte, with no error
(the return type of `composite_segment` has no error channel). -/
theorem c4_invalid_sizes_noop
    (base_frame creative_frame : List ℕ) (depth_map : List (Option ℚ))
    (alpha_mask : List ℕ) (width height : ℕ) (creative_depth : Option ℚ)
    (hwh : width * height < 2 ^ 32)
    (h : base_frame.length < width * height * 4 ∨
         creative_frame.length < width * height * 4 ∨
         depth_map.length < width * height ∨
         alpha_mask.length < width * height) :
    composite_segment base_frame creative_frame depth_map alpha_mask
        width height creative_depth = base_frame := by
  simp only [composite_segment, Nat.mod_eq_of_lt hwh]
  rw [if_pos h]

/-- Witness for C4 at the repo's own invalid-input test (a 4-byte base
buffer for a 2×2 frame). -/
theorem c4_invalid_sizes_noop_witness :
    composite_segment [255, 0, 0, 255] [0, 0, 255, 255, 0, 0, 255, 255, 0, 0,
        255, 255, 0, 0, 255, 255] [some 10, some 10, some 10, some 10]
        [255, 255, 255, 255] 2 2 (some 5) = [255, 0, 0, 255] :=
  c4_invalid_sizes_noop [255, 0, 0, 255] [0, 0, 255, 255, 0, 0, 255, 255, 0,
    0, 255, 255, 0, 0, 255, 255] [some 10, some 10, some 10, some 10]
    [255, 255, 255, 255] 2 2 (some 5) (by decide) (Or.inl (by decide))

/-- C8: the single-layer operation is total — for every input it
returns a buffer of the base frame's length — and under the validated
preconditions every index the per-pixel loop uses is strictly inside
the corresponding buffer, so the out-of-bounds branch is unreachable. -/
theorem c8_total_and_in_bounds :
    (∀ (base_frame creative_frame : List ℕ) (depth_map : List (Option ℚ))
        (alpha_mask : List ℕ) (width height : ℕ) (creative_depth : Option ℚ),
      (composite_segment base_frame creative_frame depth_map alpha_mask
          width height creative_depth).length = base_frame.length)
    ∧ (∀ (base_frame creative_frame : List ℕ) (depth_map : List (Option ℚ))
        (alpha_mask : List ℕ) (width height : ℕ) (creative_depth : Option ℚ)
        (i ch : ℕ),
      base_frame.length ≥ width * height % 2 ^ 32 * 4 →
      creative_frame.length ≥ width * height % 2 ^ 32 * 4 →
      depth_map.length ≥ width * height % 2 ^ 32 →
      alpha_mask.length ≥ width * height % 2 ^ 32 →
      i < width * height % 2 ^ 32 → ch < 4 →
      i < depth_map.length ∧ i < alpha_mask.length ∧
        i * 4 + ch < base_frame.length ∧
        i * 4 + ch < creative_frame.length ∧
        i * 4 + ch < (composite_segment base_frame creative_frame depth_map
          alpha_mask width height creative_depth).length) := by
  have hlen : ∀ (base_frame creative_frame : List ℕ)
      (depth_map : List (Option ℚ)) (alpha_mask : List ℕ)
      (width height : ℕ) (creative_depth : Option ℚ),
      (composite_segment base_frame creative_frame depth_map alpha_mask
          width height creative_depth).length = base_frame.length := by
    intro base_frame creative_frame depth_map alpha_mask width height
      creative_depth
    simp only [composite_segment, composite_with_depth]
    split <;> simp
  refine ⟨hlen, ?_⟩
  intro base_frame creative_frame depth_map alpha_mask width height
    creative_depth i ch hb hc hd hm hi hch
  rw [hlen]
  omega

/-- Witness for C8's in-bounds part at a concrete 1×1 frame. -/
theorem c8_total_and_in_bounds_witness :
    0 < ([some 10] : List (Option ℚ)).length ∧
      0 < ([255] : List ℕ).length ∧
      0 * 4 + 3 < ([255, 0, 0, 255] : List ℕ).length ∧
      0 * 4 + 3 < ([0, 255, 0, 255] : List ℕ).length ∧
      0 * 4 + 3 < (composite_segment [255, 0, 0, 255] [0, 255, 0, 255]
        [some 10] [255] 1 1 (some 5)).length :=
  c8_total_and_in_bounds.2 [255, 0, 0, 255] [0, 255, 0, 255] [some 10] [255]
    1 1 (some 5) 0 3 (by decide) (by decide) (by decide) (by decide)
    (by decide) (by decide)

/-- C9 counterexample: `validate_frame_size` computes
`width * height * 4` in `u32`, which wraps; at `width = height = 65536`
the wrapped product is `0`, so a zero-length buffer validates although
`0 ≥ 65536 * 65536 * 4` is false. -/
theorem c9_validate_size_counterexample :
    validate_frame_size 0 65536 65536 = true ∧
      ¬ (0 : ℕ) ≥ 65536 * 65536 * 4 := by
  decide

/-- C9 amended: when `width * height * 4` does not overflow `u32`, the
predicate is true iff `data_len ≥ width * height * 4`; the three
concrete instances of the claim hold. -/
theorem c9_validate_size_amended :
    (∀ data_len width height : ℕ, width * height * 4 < 2 ^ 32 →
      (validate_frame_size data_len width height = true ↔
        data_len ≥ width * height * 4))
    ∧ validate_frame_size 40000 100 100 = true
    ∧ validate_frame_size 39999 100 100 = false
    ∧ validate_frame_size 0 0 0 = true := by
  refine ⟨?_, by decide, by decide, by decide⟩
  intro data_len width height h
  simp only [validate_frame_size, Nat.mod_eq_of_lt h]
  exact decide_eq_true_iff

/-- Witness for C9's amended universal part. -/
theorem c9_validate_size_amended_witness :
    validate_frame_size 40001 100 100 = true ↔ (40001 : ℕ) ≥ 100 * 100 * 4 :=
  c9_validate_size_amended.1 40001 100 100 (by decide)

/-! ### Helper lemmas about the `EdgeCompositor` -/

/-- The memory estimate in closed form when nothing wraps. -/
theorem estimate_memory_usage_eq (self : EdgeCompositor)
    (base_frame : VideoFrame) (layers : List PlacementLayer)
    (h4 : base_frame.width * base_frame.height * 4 < 2 ^ 32)
    (hl : layers.length * 2 < 2 ^ 32)
    (hs : base_frame.width * base_frame.height * 4 / (1024 * 1024)
      + layers.length * 2 < 2 ^ 32) :
    self.estimate_memory_usage base_frame layers
      = base_frame.width * base_frame.height * 4 / (1024 * 1024)
        + layers.length * 2 := by
  simp only [EdgeCompositor.estimate_memory_usage]
  omega

/-- The only error `composite_layer` can produce is `ProcessingFailed`. -/
theorem composite_layer_error_eq (self : EdgeCompositor)
    (base_frame : VideoFrame) (layer : PlacementLayer) (e : CompositorError)
    (h : self.composite_layer base_frame layer = .error e) :
    e = .ProcessingFailed := by
  rw [EdgeCompositor.composite_layer] at h
  by_cases he : layer.creative_data.isEmpty
  · rw [if_pos he] at h
    exact (Except.error.inj h).symm
  · rw [if_neg he] at h
    cases hb : layer.blend_mode <;> rw [hb] at h <;> exact Except.noConfusion h

/-- If some admitted layer has an empty creative buffer, the layer loop
aborts with `ProcessingFailed`. -/
theorem applyLayers_empty_creative (self : EdgeCompositor)
    (uncertainty_score : ℚ) :
    ∀ (layers : List PlacementLayer) (output_frame : VideoFrame),
      (∃ l ∈ layers,
        self.should_composite_layer l uncertainty_score = true ∧
        l.creative_data = []) →
      self.applyLayers output_frame layers uncertainty_score
        = .error .ProcessingFailed := by
  intro layers
  induction layers with
  | nil =>
    rintro f ⟨l, hl, -⟩
    exact absurd hl (List.not_mem_nil l)
  | cons layer rest ih =>
    rintro f ⟨l, hl, hshould, hempty⟩
    simp only [EdgeCompositor.applyLayers]
    by_cases hs : self.should_composite_layer layer uncertainty_score = true
    · rw [if_pos hs]
      cases hcl : self.composite_layer f layer with
      | error e =>
        rw [composite_layer_error_eq self f layer e hcl]
      | ok f' =>
        have he : ¬ layer.creative_data.isEmpty := by
          intro he
          rw [EdgeCompositor.composite_layer, if_pos he] at hcl
          exact Except.noConfusion hcl
        have hl' : l ∈ rest := by
          rcases List.mem_cons.mp hl with rfl | h
          · exact absurd (List.isEmpty_iff.mpr hempty) he
          · exact h
        exact ih f' ⟨l, hl', hshould, hempty⟩
    · rw [if_neg (by simp [Bool.not_eq_true] at hs; simp [hs])]
      have hl' : l ∈ rest := by
        rcases List.mem_cons.mp hl with rfl | h
        · exact absurd hshould hs
        · exact h
      exact ih f ⟨l, hl', hshould, hempty⟩

/-! ### Claims about the multi-layer `EdgeCompositor` -/

/-- C5: with a non-empty base buffer and a frame uncertainty strictly
above the threshold, `composite_segment` fails with
`UncertaintyThresholdExceeded`, bumps `uncertainty_rejections` by
exactly one, leaves `frames_processed` unchanged, and composites no
layer. -/
theorem c5_uncertainty_rejection (self : EdgeCompositor)
    (base_frame : VideoFrame) (layers : List PlacementLayer)
    (uncertainty_score : ℚ)
    (hne : base_frame.data ≠ [])
    (hu : uncertainty_score > self.config.uncertainty_threshold) :
    (self.composite_segment base_frame layers uncertainty_score).1
        = .error .UncertaintyThresholdExceeded ∧
      ((self.composite_segment base_frame layers uncertainty_score).2
          ).performance_stats.uncertainty_rejections
        = self.performance_stats.uncertainty_rejections + 1 ∧
      ((self.composite_segment base_frame layers uncertainty_score).2
          ).performance_stats.frames_processed
        = self.performance_stats.frames_processed := by
  have hmain : self.composite_segment base_frame layers uncertainty_score
      = (.error .UncertaintyThresholdExceeded,
        { self with performance_stats := { self.performance_stats with
            uncertainty_rejections :=
              self.performance_stats.uncertainty_rejections + 1 } }) := by
    rw [EdgeCompositor.composite_segment,
      if_neg (by simpa [List.isEmpty_iff] using hne), if_pos hu]
  rw [hmain]
  exact ⟨rfl, rfl, rfl⟩

/-- Witness for C5 at the repo's `test_uncertainty_gating` input. -/
theorem c5_uncertainty_rejection_witness :
    ((EdgeCompositor.new ⟨256, 0.8, 0.5⟩).composite_segment ⟨1, 1, [100]⟩
        [] 0.8).1 = .error .UncertaintyThresholdExceeded ∧
      (((EdgeCompositor.new ⟨256, 0.8, 0.5⟩).composite_segment ⟨1, 1, [100]⟩
        [] 0.8).2).performance_stats.uncertainty_rejections
        = (EdgeCompositor.new ⟨256, 0.8, 0.5⟩
          ).performance_stats.uncertainty_rejections + 1 ∧
      (((EdgeCompositor.new ⟨256, 0.8, 0.5⟩).composite_segment ⟨1, 1, [100]⟩
        [] 0.8).2).performance_stats.frames_processed
        = (EdgeCompositor.new ⟨256, 0.8, 0.5⟩
          ).performance_stats.frames_processed :=
  c5_uncertainty_rejection (EdgeCompositor.new ⟨256, 0.8, 0.5⟩) ⟨1, 1, [100]⟩
    [] 0.8 (by simp) (by with_unfolding_all decide)

/-- C6 counterexample: at `width = height = 65536` with a non-empty
1-byte data buffer (dimensions are never checked against the buffer),
the `u32` product `width * height * 4` wraps to `0`, so the code's
estimate is `0` MB against a `0` MB budget although the claim's
mathematical estimate is `16384` MB; the call succeeds and bumps
`frames_processed` instead of failing with `MemoryExceeded`. -/
theorem c6_overflow_counterexample :
    65536 * 65536 * 4 / (1024 * 1024) + ([] : List PlacementLayer).length * 2
        > (EdgeCompositor.new ⟨0, 0.8, 0.7⟩).config.max_memory_mb ∧
      ((EdgeCompositor.new ⟨0, 0.8, 0.7⟩).composite_segment
          ⟨65536, 65536, [1]⟩ [] 0).1 ≠ .error .MemoryExceeded ∧
      (((EdgeCompositor.new ⟨0, 0.8, 0.7⟩).composite_segment
          ⟨65536, 65536, [1]⟩ [] 0).2).performance_stats.frames_processed
        = (EdgeCompositor.new ⟨0, 0.8, 0.7⟩
          ).performance_stats.frames_processed + 1 := by
  with_unfolding_all decide

/-- C6 (amended: the `u32` arithmetic of the estimate must not wrap —
`width * height * 4 < 2 ^ 32`, `2 · layers < 2 ^ 32` and their combined
estimate `< 2 ^ 32`): past the input-validity and uncertainty checks,
if the memory estimate — pixel bytes converted to MB plus 2 MB per
layer — strictly exceeds `max_memory_mb`, the call fails with
`MemoryExceeded` and the compositor state (hence `frames_processed`)
is unchanged. -/
theorem c6_memory_rejection (self : EdgeCompositor)
    (base_frame : VideoFrame) (layers : List PlacementLayer)
    (uncertainty_score : ℚ)
    (hne : base_frame.data ≠ [])
    (hu : uncertainty_score ≤ self.config.uncertainty_threshold)
    (h4 : base_frame.width * base_frame.height * 4 < 2 ^ 32)
    (hl : layers.length * 2 < 2 ^ 32)
    (hs : base_frame.width * base_frame.height * 4 / (1024 * 1024)
      + layers.length * 2 < 2 ^ 32)
    (hmem : base_frame.width * base_frame.height * 4 / (1024 * 1024)
      + layers.length * 2 > self.config.max_memory_mb) :
    self.composite_segment base_frame layers uncertainty_score
      = (.error .MemoryExceeded, self) := by
  rw [EdgeCompositor.composite_segment,
    if_neg (by simpa [List.isEmpty_iff] using hne),
    if_neg (not_lt.mpr hu)]
  have hest := estimate_memory_usage_eq self base_frame layers h4 hl hs
  simp only []
  rw [if_pos (show self.config.max_memory_mb
    < self.estimate_memory_usage base_frame layers by rw [hest]; exact hmem)]

/-- Witness for C6 at the repo's `test_memory_constraint_handling`
geometry (1920×1080 frame, one layer, 1 MB budget). -/
theorem c6_memory_rejection_witness :
    (EdgeCompositor.new ⟨1, 0.8, 0.7⟩).composite_segment ⟨1920, 1080, [150]⟩
        [⟨[180], [1, 0, 0, 0, 1, 0, 0, 0, 1], 0.7, .Normal⟩] 0.2
      = (.error .MemoryExceeded, EdgeCompositor.new ⟨1, 0.8, 0.7⟩) :=
  c6_memory_rejection (EdgeCompositor.new ⟨1, 0.8, 0.7⟩) ⟨1920, 1080, [150]⟩
    [⟨[180], [1, 0, 0, 0, 1, 0, 0, 0, 1], 0.7, .Normal⟩] 0.2
    (by simp) (by with_unfolding_all decide) (by decide) (by decide)
    (by decide) (by decide)

/-- C7 counterexample: the claim's exact, unrounded uncertainty total
differs observably from the `f32` total the code computes.  With
`t2 = 1`, `t5 = 3·2⁻²⁵`, `u = 1` and quality threshold `1 + 2⁻²³`, the
code rounds `|t2| + |t5|` up to `1 + 2⁻²³` and rejects the layer, while
the claim's exact total `1 + 3·2⁻²⁵` is strictly below the threshold
(and the opacity is `1 ≥ 0.1`), refuting the claimed iff. -/
theorem c7_rounding_counterexample :
    (EdgeCompositor.new ⟨256, 8388609 / 8388608, 0.7⟩).should_composite_layer
        ⟨[255], [1, 0, 1, 0, 1, 3 / 33554432, 0, 0, 1], 1, .Normal⟩ 1
        = false ∧
      ((⟨[255], [1, 0, 1, 0, 1, 3 / 33554432, 0, 0, 1], 1, .Normal⟩ :
          PlacementLayer).opacity ≥ 0.1 ∧
        (qabs (([1, 0, 1, 0, 1, 3 / 33554432, 0, 0, 1] : List ℚ).getD 2 0)
            + qabs (([1, 0, 1, 0, 1, 3 / 33554432, 0, 0, 1] : List ℚ).getD 5 0))
            * 1
          + (qabs (([1, 0, 1, 0, 1, 3 / 33554432, 0, 0, 1] : List ℚ).getD 0 0
              - 1)
            + qabs (([1, 0, 1, 0, 1, 3 / 33554432, 0, 0, 1] : List ℚ).getD 4 0
              - 1)) * 1
          < (EdgeCompositor.new ⟨256, 8388609 / 8388608, 0.7⟩
            ).config.quality_threshold) := by
  with_unfolding_all decide

/-- C7 (amended: the transform uncertainty total is the one the code
computes in `f32`, rounding to nearest-even after every operation):
a layer is admitted iff its opacity is at least `0.1` and
`fl(fl(fl(|t2| + |t5|)·u) + fl(fl(|fl(t0 − 1)| + |fl(t4 − 1)|)·u))` is
strictly below the quality threshold; a rejected layer is skipped
and the loop simply proceeds with the remaining layers. -/
theorem c7_layer_admission :
    (∀ (self : EdgeCompositor) (layer : PlacementLayer) (u : ℚ),
      self.should_composite_layer layer u = true ↔
        (layer.opacity ≥ 0.1 ∧
          roundF32 (roundF32 (roundF32 (qabs (layer.transform.getD 2 0)
                + qabs (layer.transform.getD 5 0)) * u)
              + roundF32 (roundF32 (qabs (roundF32 (layer.transform.getD 0 0
                  - 1))
                + qabs (roundF32 (layer.transform.getD 4 0 - 1))) * u))
            < self.config.quality_threshold))
    ∧ (∀ (self : EdgeCompositor) (output_frame : VideoFrame)
        (layer : PlacementLayer) (rest : List PlacementLayer) (u : ℚ),
      self.should_composite_layer layer u = false →
      self.applyLayers output_frame (layer :: rest) u
        = self.applyLayers output_frame rest u) := by
  constructor
  · intro self layer u
    simp only [EdgeCompositor.should_composite_layer,
      EdgeCompositor.calculate_transform_uncertainty]
    by_cases h : layer.opacity < 0.1
    · rw [if_pos h]
      exact iff_of_false (by simp)
        (fun hc => absurd hc.1 (not_le.mpr h))
    · rw [if_neg h, decide_eq_true_iff]
      exact ⟨fun ht => ⟨not_lt.mp h, ht⟩, fun hc => hc.2⟩
  · intro self output_frame layer rest u h
    rw [EdgeCompositor.applyLayers, if_neg (by simp [h])]

/-- Witness for C7's skip behaviour at the repo's low-opacity layer. -/
theorem c7_layer_admission_witness :
    (EdgeCompositor.new ⟨256, 0.5, 0.8⟩).applyLayers ⟨1, 1, [0, 0, 0, 255]⟩
        [⟨[255], [1, 0, 0, 0, 1, 0, 0, 0, 1], 0.05, .Normal⟩] 0.3
      = (EdgeCompositor.new ⟨256, 0.5, 0.8⟩).applyLayers ⟨1, 1, [0, 0, 0, 255]⟩
        [] 0.3 :=
  c7_layer_admission.2 (EdgeCompositor.new ⟨256, 0.5, 0.8⟩)
    ⟨1, 1, [0, 0, 0, 255]⟩ ⟨[255], [1, 0, 0, 0, 1, 0, 0, 0, 1], 0.05, .Normal⟩
    [] 0.3 (by with_unfolding_all decide)

/-- C10: past the global checks, if some admitted layer has an empty
creative buffer the whole call fails with `ProcessingFailed` and the
compositor state is unchanged — no output frame, no further layers, no
statistics update. -/
theorem c10_empty_admitted_layer_fails (self : EdgeCompositor)
    (base_frame : VideoFrame) (layers : List PlacementLayer)
    (uncertainty_score : ℚ)
    (hne : base_frame.data ≠ [])
    (hu : uncertainty_score ≤ self.config.uncertainty_threshold)
    (hmem : self.estimate_memory_usage base_frame layers
      ≤ self.config.max_memory_mb)
    (hlayer : ∃ l ∈ layers,
      self.should_composite_layer l uncertainty_score = true ∧
      l.creative_data = []) :
    self.composite_segment base_frame layers uncertainty_score
      = (.error .ProcessingFailed, self) := by
  rw [EdgeCompositor.composite_segment,
    if_neg (by simpa [List.isEmpty_iff] using hne),
    if_neg (not_lt.mpr hu)]
  simp only []
  rw [if_neg (not_lt.mpr hmem),
    applyLayers_empty_creative self uncertainty_score layers base_frame hlayer]

/-- Witness for C10: an admitted identity-transform layer with an empty
creative buffer fails the whole call. -/
theorem c10_empty_admitted_layer_fails_witness :
    (EdgeCompositor.new ⟨256, 0.8, 0.7⟩).composite_segment ⟨1, 1, [0, 0, 0, 255]⟩
        [⟨[], [1, 0, 0, 0, 1, 0, 0, 0, 1], 0.8, .Normal⟩] 0.3
      = (.error .ProcessingFailed, EdgeCompositor.new ⟨256, 0.8, 0.7⟩) :=
  c10_empty_admitted_layer_fails (EdgeCompositor.new ⟨256, 0.8, 0.7⟩)
    ⟨1, 1, [0, 0, 0, 255]⟩ [⟨[], [1, 0, 0, 0, 1, 0, 0, 0, 1], 0.8, .Normal⟩]
    0.3 (by simp) (by with_unfolding_all decide) (by decide)
    ⟨⟨[], [1, 0, 0, 0, 1, 0, 0, 0, 1], 0.8, .Normal⟩, by simp,
      by with_unfolding_all decide, rfl⟩

end Inscenium
